import Mathlib

/-!
Verification of the mastra-telex-domain-agent repository's response-normalization
and dual-delivery protocol layer.

The TypeScript sources are shallowly embedded: JavaScript values visible to the
code are modelled by `JVal` (with `undefined` for `undefined`, so that a property
access on a missing key yields `undefined` exactly as in JavaScript), external
effects (the Mastra agent call, the WHOIS fetch, the push POST) are parameters
of type `AgentOutcome`, `FetchOutcome` and `PushOutcome`, and each embedded
function mirrors one function of the source:

* `handleDomainMessage`, `looksLikeResultEnvelope`  — src/mastra/agents/domain-agent.ts
* `extractUserText`, `resolvePushUrl`, `resolvePushToken`, `postToPushUrl`,
  `appPost`, `syncResponse`, `envelopeFor`, `buildJsonRpcResult`,
  `buildJsonRpcError`                               — src/mastra/agents/server.ts
* `whoisCore`, `whoisExecute`, `checkDomainStatus`  — whoisTool.execute
* `stripHtml`, `extractDomainFromText`, `scanParts`, `part5Handle`
                                                    — the agents/domain-agent.js draft
                                                      (message-parts handler)

Recursion over nested lists is expressed with an explicit fuel argument (always
called with ample fuel) so every definition is structurally recursive and
evaluates inside the kernel.
-/

namespace DomainAgent

/-- A JavaScript value as seen by the embedded code. `undefined` is JavaScript's
`undefined` (distinct from `null`); objects are ordered key/value lists. -/
inductive JVal where
  | undefined
  | null
  | bool (b : Bool)
  | num (n : Int)
  | str (s : String)
  | arr (elems : List JVal)
  | obj (fields : List (String × JVal))

/-- First binding of a key in an object's field list. -/
def lookupField : List (String × JVal) → String → Option JVal
  | [], _ => none
  | (k, v) :: rest, key => if k = key then some v else lookupField rest key

/-- Property access `v[key]`. A missing key, or access on a primitive, yields
`undefined`, as in JavaScript. (JavaScript throws on property access of `null` or
`undefined`; the embedded handlers either guard such accesses with truthiness
checks or `?.`, or — in `scanParts` — the throw is modelled explicitly.) -/
def JVal.get (v : JVal) (key : String) : JVal :=
  match v with
  | .obj fields =>
    match lookupField fields key with
    | some w => w
    | none => .undefined
  | _ => .undefined

/-- JavaScript truthiness. -/
def truthy : JVal → Bool
  | .undefined => false
  | .null => false
  | .bool b => b
  | .num n => decide (n ≠ 0)
  | .str s => !s.isEmpty
  | .arr _ => true
  | .obj _ => true

/-- `null` or `undefined` (the values skipped by JavaScript's `??`). -/
def isNullish : JVal → Bool
  | .undefined => true
  | .null => true
  | _ => false

def isUndefined : JVal → Bool
  | .undefined => true
  | _ => false

def isArrVal : JVal → Bool
  | .arr _ => true
  | _ => false

def asArr : JVal → List JVal
  | .arr xs => xs
  | _ => []

/-- JavaScript `a ?? b`. -/
def coalesce (a b : JVal) : JVal := if isNullish a then b else a

/-- JavaScript `a || b`. -/
def jsOr (a b : JVal) : JVal := if truthy a then a else b

/-- JavaScript `typeof v === "object"` (true for `null`, arrays and objects). -/
def isObjectType : JVal → Bool
  | .null => true
  | .arr _ => true
  | .obj _ => true
  | _ => false

/-- JavaScript `key in v` on a plain object. -/
def hasKey (v : JVal) (key : String) : Bool :=
  match v with
  | .obj fields => (lookupField fields key).isSome
  | _ => false

def isBoolTrue : JVal → Bool
  | .bool true => true
  | _ => false

/-- `v === s` for a string literal `s`. -/
def isStrVal (v : JVal) (s : String) : Bool :=
  match v with
  | .str t => t = s
  | _ => false

def lbrace : String := "\x7b"

def rbrace : String := "\x7d"

def spaces (n : Nat) : String := String.mk (List.replicate n ' ')

def hexDigit (n : Nat) : Char :=
  if n < 10 then Char.ofNat ('0'.toNat + n) else Char.ofNat ('a'.toNat + (n - 10))

/-- JSON string quoting as produced by `JSON.stringify`. -/
def quoteJson (s : String) : String :=
  let esc (c : Char) : String :=
    if c = '"' then "\\\""
    else if c = '\\' then "\\\\"
    else if c = '\n' then "\\n"
    else if c = '\r' then "\\r"
    else if c = '\t' then "\\t"
    else if c.toNat < 32 then "\\u00" ++ String.mk [hexDigit (c.toNat / 16), hexDigit (c.toNat % 16)]
    else String.mk [c]
  "\"" ++ String.join (s.toList.map esc) ++ "\""

def renderBlock (opening closing : String) (ind : Nat) (items : List String) : String :=
  if items.isEmpty then opening ++ closing
  else
    opening ++ "\n" ++
      String.intercalate ",\n" (items.map (fun s => spaces (ind + 2) ++ s)) ++
      "\n" ++ spaces ind ++ closing

mutual
/-- `JSON.stringify(v, null, 2)` at indent `ind`; `none` models the `undefined`
result for an `undefined` input. -/
def strVal (ind : Nat) : JVal → Option String
  | .undefined => none
  | .null => some "null"
  | .bool b => some (if b then "true" else "false")
  | .num n => some (toString n)
  | .str s => some (quoteJson s)
  | .arr xs => some (renderBlock "[" "]" ind (strItems (ind + 2) xs))
  | .obj fs => some (renderBlock lbrace rbrace ind (strFields (ind + 2) fs))

/-- Array elements: an `undefined` element renders as `"null"`. -/
def strItems (ind : Nat) : List JVal → List String
  | [] => []
  | x :: rest =>
    (match strVal ind x with
     | some s => s
     | none => "null") :: strItems ind rest

/-- Object fields: a field whose value is `undefined` is omitted. -/
def strFields (ind : Nat) : List (String × JVal) → List String
  | [] => []
  | (k, v) :: rest =>
    match strVal ind v with
    | some s => (quoteJson k ++ ": " ++ s) :: strFields ind rest
    | none => strFields ind rest
end

/-- `JSON.stringify(v, null, 2)`. -/
def jsonStringify2 (v : JVal) : Option String := strVal 0 v

/-- `JSON.stringify(v, null, 2)` used in a value position (its `undefined`
result stays `undefined`). -/
def stringifyOrUndefined (v : JVal) : JVal :=
  match jsonStringify2 v with
  | some s => .str s
  | none => .undefined

mutual
/-- JavaScript `String(v)` / template interpolation
(`Array.prototype.toString` joins the elements with commas, rendering `null`
and `undefined` elements as empty). -/
def jsToString : JVal → String
  | .undefined => "undefined"
  | .null => "null"
  | .bool b => if b then "true" else "false"
  | .num n => toString n
  | .str s => s
  | .arr xs => String.intercalate "," (jsToStringItems xs)
  | .obj _ => "[object Object]"

def jsToStringItems : List JVal → List String
  | [] => []
  | x :: rest =>
    (match x with
     | .undefined => ""
     | .null => ""
     | _ => jsToString x) :: jsToStringItems rest
end

/-- `{ type: "text/plain", parts: [{ text }] }`. -/
def textArtifact (t : JVal) : JVal :=
  .obj [("type", .str "text/plain"), ("parts", .arr [.obj [("text", t)]])]

/-- `{ type: "application/json", parts: [{ json }] }`. -/
def jsonArtifact (d : JVal) : JVal :=
  .obj [("type", .str "application/json"), ("parts", .arr [.obj [("json", d)]])]

/-- `{ text, artifacts: [{ type: "text/plain", parts: [{ text }] }] }`. -/
def mkTextOutput (t : JVal) : JVal :=
  .obj [("text", t), ("artifacts", .arr [textArtifact t])]

/-- `{ text: JSON.stringify(d, null, 2), artifacts: [{ type: "application/json",
parts: [{ json: d }] }] }`. -/
def mkJsonOutput (d : JVal) : JVal :=
  .obj [("text", stringifyOrUndefined d), ("artifacts", .arr [jsonArtifact d])]

/-- `{ result: { ok: true, output } }`. -/
def wrapOk (output : JVal) : JVal :=
  .obj [("result", .obj [("ok", .bool true), ("output", output)])]

/-- The catch-branch envelope of `handleDomainMessage`:
`{ error: { code: -32000, message, data: { where: "handleDomainMessage" } } }`. -/
def mkHandlerError (msg : String) : JVal :=
  .obj [("error", .obj [("code", .num (-32000)), ("message", .str msg),
    ("data", .obj [("where", .str "handleDomainMessage")])])]

/-- domain-agent.ts `looksLikeResultEnvelope`. -/
def looksLikeResultEnvelope (o : JVal) : Bool :=
  if !(truthy o) || !(isObjectType o) then false
  else if isStrVal (o.get "jsonrpc") "2.0" && (hasKey o "result" || hasKey o "error") then true
  else if truthy (o.get "result") && isObjectType (o.get "result") &&
      (truthy ((o.get "result").get "output") || !(isUndefined ((o.get "result").get "ok"))) then true
  else if truthy (o.get "output") &&
      (truthy ((o.get "output").get "text") || truthy ((o.get "output").get "artifacts")) then true
  else false

/-- Result of the opaque `domainAgent.generate` call: either a resolved value or
a thrown error (carrying `String(err?.message ?? err)`). -/
inductive AgentOutcome where
  | value (v : JVal)
  | thrown (msg : String)

/-- The body of domain-agent.ts `handleDomainMessage` after the agent call
returned `agentResult` (the try-block from the `looksLikeResultEnvelope` test
down to the final stringify fallback). -/
def normalizeAgentResult (agentResult : JVal) : JVal :=
  if looksLikeResultEnvelope agentResult then agentResult
  else if truthy agentResult && isObjectType agentResult then
    if truthy (agentResult.get "output") then
      wrapOk (agentResult.get "output")
    else if truthy (agentResult.get "output_text") || truthy (agentResult.get "text") then
      wrapOk (mkTextOutput (coalesce (agentResult.get "output_text") (agentResult.get "text")))
    else if truthy (agentResult.get "data") then
      wrapOk (mkJsonOutput (agentResult.get "data"))
    else
      wrapOk (mkJsonOutput agentResult)
  else
    match agentResult with
    | .str s => wrapOk (mkTextOutput (.str s))
    | _ => wrapOk (mkJsonOutput agentResult)

/-- domain-agent.ts `handleDomainMessage` (the Result Normalizer), as a function
of the agent call's outcome. -/
def handleDomainMessage : AgentOutcome → JVal
  | .value v => normalizeAgentResult v
  | .thrown msg => mkHandlerError msg

/-- The whitespace class of `trim` and the regexes in play (ASCII part). -/
def jsWhitespace (c : Char) : Bool :=
  c = ' ' || c = '\t' || c = '\n' || c = '\r' || c = '\x0b' || c = '\x0c'

def trimChars (cs : List Char) : List Char :=
  ((cs.dropWhile jsWhitespace).reverse.dropWhile jsWhitespace).reverse

/-- JavaScript `s.trim()`. -/
def jsTrim (s : String) : String := String.mk (trimChars s.toList)

/-- JavaScript `s.toLowerCase()` (ASCII case folding, which covers the inputs
in play). -/
def lowerStr (s : String) : String := String.mk (s.toList.map Char.toLower)

/-- `typeof v === "string" && v.trim()` — the trimmed text when it is a
non-empty string. -/
def strTrimNonempty : JVal → Option String
  | .str s => let t := jsTrim s; if t.isEmpty then none else some t
  | _ => none

/-- The parts loop of server.ts `extractUserText`: first part carrying a
non-empty trimmed string under `text`, `payload` or `body`. -/
def firstPartText : List JVal → Option String
  | [] => none
  | p :: rest =>
    if !(truthy p) then firstPartText rest
    else
      match strTrimNonempty (p.get "text") with
      | some t => some t
      | none =>
        match strTrimNonempty (p.get "payload") with
        | some t => some t
        | none =>
          match strTrimNonempty (p.get "body") with
          | some t => some t
          | none => firstPartText rest

/-- server.ts `extractUserText`. -/
def extractUserText (reqBody : JVal) : String :=
  let msg := coalesce ((reqBody.get "params").get "message") (coalesce (reqBody.get "message") .null)
  let fromParts : Option String :=
    if truthy msg && isArrVal (msg.get "parts") then firstPartText (asArr (msg.get "parts"))
    else none
  match fromParts with
  | some t => t
  | none =>
    match strTrimNonempty (reqBody.get "input") with
    | some t => t
    | none =>
      match strTrimNonempty ((reqBody.get "params").get "input") with
      | some t => t
      | none =>
        match strTrimNonempty (reqBody.get "text") with
        | some t => t
        | none => ""

/-- server.ts `buildJsonRpcResult`. -/
def buildJsonRpcResult (idValue resultObj : JVal) : JVal :=
  .obj [("jsonrpc", .str "2.0"), ("id", coalesce idValue .null), ("result", resultObj)]

/-- server.ts `buildJsonRpcError`. -/
def buildJsonRpcError (idValue code message data : JVal) : JVal :=
  .obj [("jsonrpc", .str "2.0"), ("id", coalesce idValue .null),
    ("error", .obj [("code", code), ("message", message), ("data", data)])]

/-- `req.body?.configuration?.pushNotificationConfig?.url` (before `?? null`). -/
def configPushUrl (body : JVal) : JVal :=
  ((body.get "configuration").get "pushNotificationConfig").get "url"

def configPushToken (body : JVal) : JVal :=
  ((body.get "configuration").get "pushNotificationConfig").get "token"

/-- server.ts lines 103–112: `params?.push_url ?? params?.pushUrl ?? null`
followed by `pushUrlFromParams ?? pushUrlFromConfig ?? null`. -/
def resolvePushUrl (body : JVal) : JVal :=
  let fromConfig := coalesce (configPushUrl body) .null
  let params := body.get "params"
  let fromParams := coalesce (params.get "push_url") (coalesce (params.get "pushUrl") .null)
  coalesce fromParams (coalesce fromConfig .null)

def resolvePushToken (body : JVal) : JVal :=
  let fromConfig := coalesce (configPushToken body) .null
  let params := body.get "params"
  let fromParams := coalesce (params.get "push_token") (coalesce (params.get "pushToken") .null)
  coalesce fromParams (coalesce fromConfig .null)

structure HttpResponse where
  status : Nat
  body : JVal

/-- One outbound POST made by `postToPushUrl`: target, JSON payload, and the
bearer token attached to the Authorization header (when truthy). -/
structure PushAttempt where
  url : JVal
  payload : JVal
  token : JVal

/-- Outcome of the `fetch` inside `postToPushUrl`: delivered (2xx), rejected
(non-2xx), or a thrown network error. -/
inductive PushOutcome where
  | delivered (status : Nat)
  | rejected (status : Nat)
  | networkError (message : String)

/-- server.ts `postToPushUrl`: always a single attempt; the outcome is only
logged (the internal try/catch swallows every failure). -/
def postToPushUrl (pushUrl payload token : JVal) (outcome : PushOutcome) :
    PushAttempt × List String :=
  (⟨pushUrl, payload, token⟩,
   match outcome with
   | .delivered st => ["[push_to_url] posted final result (status " ++ toString st ++ ")"]
   | .rejected st => ["[push_to_url] returned " ++ toString st]
   | .networkError msg => ["[push_to_url] failed to POST to push_url: " ++ msg])

/-- The payload derivation shared by the async branch (server.ts lines
128–152): translate `agentReply` into the JSON-RPC envelope POSTed to the push
target. -/
def envelopeFor (idv agentReply : JVal) : JVal :=
  if truthy (agentReply.get "jsonrpc") &&
      (truthy (agentReply.get "result") || truthy (agentReply.get "error")) then
    agentReply
  else if truthy (agentReply.get "result") then
    buildJsonRpcResult idv (agentReply.get "result")
  else if truthy (agentReply.get "error") then
    buildJsonRpcError idv
      (coalesce ((agentReply.get "error").get "code") (.num (-32000)))
      (coalesce ((agentReply.get "error").get "message") (.str "Agent error"))
      (coalesce ((agentReply.get "error").get "data") .null)
  else
    match agentReply with
    | .str s => buildJsonRpcResult idv (.obj [("ok", .bool true), ("output", mkTextOutput (.str s))])
    | _ => buildJsonRpcResult idv (.obj [("ok", .bool true), ("output", mkJsonOutput agentReply)])

/-- The sync branch of the endpoint (server.ts lines 164–185): dispatch
`agentReply` as the HTTP response, status 500 exactly for a bare error reply. -/
def syncResponse (idv agentReply : JVal) : HttpResponse :=
  if truthy (agentReply.get "jsonrpc") &&
      (truthy (agentReply.get "result") || truthy (agentReply.get "error")) then
    ⟨200, agentReply⟩
  else if truthy (agentReply.get "result") then
    ⟨200, .obj [("jsonrpc", .str "2.0"), ("id", idv), ("result", agentReply.get "result")]⟩
  else if truthy (agentReply.get "error") then
    ⟨500, buildJsonRpcError idv
      (coalesce ((agentReply.get "error").get "code") (.num (-32000)))
      (coalesce ((agentReply.get "error").get "message") (.str "Agent error"))
      (coalesce ((agentReply.get "error").get "data") .null)⟩
  else
    match agentReply with
    | .str s =>
      ⟨200, buildJsonRpcResult idv (.obj [("ok", .bool true), ("output", mkTextOutput (.str s))])⟩
    | _ =>
      ⟨200, buildJsonRpcResult idv (.obj [("ok", .bool true), ("output", mkJsonOutput agentReply)])⟩

/-- The 202 acknowledgment sent before background work in push mode. -/
def ackResponse (jsonrpcVersion idv : JVal) : HttpResponse :=
  if truthy idv then
    ⟨202, .obj [("jsonrpc", jsonrpcVersion), ("id", idv), ("result", .obj [("status", .str "accepted")])]⟩
  else
    ⟨202, .obj [("ok", .bool true), ("status", .str "accepted")]⟩

/-- Everything observable from one run of the endpoint handler. -/
structure HandlerTrace where
  response : HttpResponse
  pushes : List PushAttempt
  logs : List String

/-- The `POST /a2a/agent/:id` handler of server.ts, as a function of the request
body and the outcomes of the two external calls (the agent invocation inside
`handleDomainMessage`, and the push POST when one happens). The background
async block runs after the 202 acknowledgment; `handleDomainMessage` never
rejects (it catches internally), and `postToPushUrl` swallows its own failures,
so the background catch stays unreachable. -/
def appPost (body : JVal) (agent : AgentOutcome) (push : PushOutcome) : HandlerTrace :=
  let jsonrpcVersion := coalesce (body.get "jsonrpc") (.str "2.0")
  let idv := coalesce (body.get "id") .null
  let pushUrl := resolvePushUrl body
  let pushToken := resolvePushToken body
  if truthy pushUrl then
    let agentReply := handleDomainMessage agent
    let payload := envelopeFor idv agentReply
    let sent := postToPushUrl pushUrl payload pushToken push
    ⟨ackResponse jsonrpcVersion idv, [sent.1], sent.2⟩
  else
    ⟨syncResponse idv (handleDomainMessage agent), [], []⟩

def lbraceChar : Char := '\x7b'

def rbraceChar : Char := '\x7d'

def jsWsChar (c : Char) : Bool := c = ' ' || c = '\t' || c = '\n' || c = '\r'

def skipWs (cs : List Char) : List Char := cs.dropWhile jsWsChar

def isDigitChar (c : Char) : Bool := '0' ≤ c && c ≤ '9'

def digitsToNat : List Char → Nat → Nat
  | [], acc => acc
  | c :: rest, acc => digitsToNat rest (acc * 10 + (c.toNat - '0'.toNat))

/-- Value of one hexadecimal digit (0-9, a-f, A-F), by code point. -/
def hexVal (c : Char) : Option Nat :=
  let n := c.toNat
  if 48 ≤ n && n ≤ 57 then some (n - 48)
  else if 97 ≤ n && n ≤ 102 then some (n - 87)
  else if 65 ≤ n && n ≤ 70 then some (n - 55)
  else none

/-- Is `needle` an initial run of `hay`? -/
def charsLead : List Char → List Char → Bool
  | [], _ => true
  | _ :: _, [] => false
  | n :: ns, h :: hs => n = h && charsLead ns hs

/-- Body of a JSON string literal (after the opening quote): accumulated
characters and the remaining input. -/
def parseStringBody : Nat → List Char → List Char → Option (String × List Char)
  | 0, _, _ => none
  | f + 1, acc, cs =>
    match cs with
    | [] => none
    | '"' :: rest => some (String.mk acc.reverse, rest)
    | '\\' :: e :: rest =>
      match e with
      | '"' => parseStringBody f ('"' :: acc) rest
      | '\\' => parseStringBody f ('\\' :: acc) rest
      | '/' => parseStringBody f ('/' :: acc) rest
      | 'n' => parseStringBody f ('\n' :: acc) rest
      | 't' => parseStringBody f ('\t' :: acc) rest
      | 'r' => parseStringBody f ('\r' :: acc) rest
      | 'b' => parseStringBody f ('\x08' :: acc) rest
      | 'f' => parseStringBody f ('\x0c' :: acc) rest
      | 'u' =>
        (match rest with
         | h1 :: h2 :: h3 :: h4 :: rest2 =>
           match hexVal h1, hexVal h2, hexVal h3, hexVal h4 with
           | some a, some b, some c, some d =>
             parseStringBody f (Char.ofNat (((a * 16 + b) * 16 + c) * 16 + d) :: acc) rest2
           | _, _, _, _ => none
         | _ => none)
      | _ => none
    | c :: rest => if c.toNat < 32 then none else parseStringBody f (c :: acc) rest

/-- JSON integer literal (the payloads in play carry only integers; a
fractional number makes the whole parse fail, which the caller treats like any
other unparsable body). -/
def parseNumber (cs : List Char) : Option (JVal × List Char) :=
  match cs with
  | '-' :: rest =>
    let ds := rest.takeWhile isDigitChar
    if ds.isEmpty then none
    else some (.num (-(digitsToNat ds 0 : Int)), rest.drop ds.length)
  | _ =>
    let ds := cs.takeWhile isDigitChar
    if ds.isEmpty then none
    else some (.num ((digitsToNat ds 0 : Int)), cs.drop ds.length)

mutual
/-- One JSON value, with the unconsumed remainder. Fueled. -/
def parseVal : Nat → List Char → Option (JVal × List Char)
  | 0, _ => none
  | f + 1, cs =>
    let cs2 := skipWs cs
    if charsLead "null".toList cs2 then some (.null, cs2.drop 4)
    else if charsLead "true".toList cs2 then some (.bool true, cs2.drop 4)
    else if charsLead "false".toList cs2 then some (.bool false, cs2.drop 5)
    else
      match cs2 with
      | [] => none
      | '"' :: rest => (parseStringBody (rest.length + 1) [] rest).map (fun p => (.str p.1, p.2))
      | '[' :: rest =>
        (match skipWs rest with
         | ']' :: rest2 => some (.arr [], rest2)
         | _ => (parseItems f rest).map (fun p => (.arr p.1, p.2)))
      | c :: rest =>
        if c = lbraceChar then
          match skipWs rest with
          | [] => none
          | c2 :: rest2 =>
            if c2 = rbraceChar then some (.obj [], rest2)
            else (parseFields f rest).map (fun p => (.obj p.1, p.2))
        else parseNumber (c :: rest)

/-- Non-empty array tail: value, then `,` or `]`. -/
def parseItems : Nat → List Char → Option (List JVal × List Char)
  | 0, _ => none
  | f + 1, cs =>
    match parseVal f cs with
    | none => none
    | some (v, rest) =>
      match skipWs rest with
      | ',' :: rest2 => (parseItems f rest2).map (fun p => (v :: p.1, p.2))
      | ']' :: rest2 => some ([v], rest2)
      | _ => none

/-- Non-empty object tail: `"key": value`, then `,` or the closing brace. -/
def parseFields : Nat → List Char → Option (List (String × JVal) × List Char)
  | 0, _ => none
  | f + 1, cs =>
    match skipWs cs with
    | '"' :: rest =>
      (match parseStringBody (rest.length + 1) [] rest with
       | none => none
       | some (k, rest2) =>
         match skipWs rest2 with
         | ':' :: rest3 =>
           (match parseVal f rest3 with
            | none => none
            | some (v, rest4) =>
              match skipWs rest4 with
              | ',' :: rest5 => (parseFields f rest5).map (fun p => ((k, v) :: p.1, p.2))
              | c :: rest5 => if c = rbraceChar then some ([(k, v)], rest5) else none
              | [] => none)
         | _ => none)
    | _ => none
end

/-- `JSON.parse`: `none` models a thrown SyntaxError. -/
def jsonParse (s : String) : Option JVal :=
  match parseVal (2 * s.length + 8) s.toList with
  | some (v, rest) => if (skipWs rest).isEmpty then some v else none
  | none => none

def charsContain (needle : List Char) : List Char → Bool
  | [] => needle.isEmpty
  | h :: hs => charsLead needle (h :: hs) || charsContain needle hs

/-- `/needle/i.test(hay)` for a literal lowercase needle: case-insensitive
substring containment (ASCII case folding, which covers the pattern in play). -/
def containsInsensitive (hay needle : String) : Bool :=
  charsContain (needle.toList.map Char.toLower) (hay.toList.map Char.toLower)

/-- Outcome of the WHOIS `fetch`: a response (`resp.ok`, `resp.status`, and the
text of the body, with the `.catch(() => "")` on `resp.text()` already folded
in) or a thrown network error. -/
inductive FetchOutcome where
  | success (ok : Bool) (status : Nat) (rawText : String)
  | failure (message : String)

/-- The registration test of whoisTool.execute:
`(json && (json.registered === true || json.is_registered === true ||
json.domainStatus === "registered")) || /registered/i.test(rawText)`. -/
def whoisRegisteredOf (json : JVal) (rawText : String) : Bool :=
  (truthy json &&
    (isBoolTrue (json.get "registered") || isBoolTrue (json.get "is_registered") ||
      isStrVal (json.get "domainStatus") "registered")) ||
  containsInsensitive rawText "registered"

/-- The try/catch body of whoisTool.execute, for an already-normalized domain
string. -/
def whoisCore (domain : String) : FetchOutcome → JVal
  | .failure msg =>
    .obj [("status", .str "error"),
      ("error", .obj [("message", .str msg), ("code", .num (-32001))]),
      ("output", .obj [("text", .str ("Error checking domain " ++ domain ++ ": " ++ msg))])]
  | .success ok _status rawText =>
    let json : JVal :=
      if rawText.isEmpty then .null
      else
        match jsonParse rawText with
        | some v => v
        | none => .null
    let registered := whoisRegisteredOf json rawText
    let expires := jsOr (json.get "expires")
      (jsOr (json.get "expiryDate") (jsOr (json.get "expiration_date") .null))
    let registrar := jsOr (json.get "registrar") .null
    let structured : JVal := .obj [
      ("status", .str (if ok then "ok" else "error")),
      ("domain", .str domain),
      ("registered", .bool registered),
      ("expires", expires),
      ("registrar", registrar),
      ("raw", coalesce json (.str rawText))]
    let humanText :=
      if registered then
        "Domain " ++ domain ++ " appears to be registered." ++
          (if truthy expires then " Expires: " ++ jsToString expires ++ "." else "") ++
          (if truthy registrar then " Registrar: " ++ jsToString registrar ++ "." else "")
      else
        "Domain " ++ domain ++ " does not appear to be registered."
    let output : JVal := .obj [
      ("text", .str humanText),
      ("artifacts", .arr [jsonArtifact structured, textArtifact (.str humanText)]),
      ("metadata", .obj [("tool", .str "check_domain_status")])]
    .obj [("status", .str "ok"), ("data", structured), ("output", output)]

/-- whoisTool.execute of domain-agent.ts (`const domain = domainArg.trim()`). -/
def whoisExecute (domainArg : String) (f : FetchOutcome) : JVal :=
  whoisCore (jsTrim domainArg) f

/-- whoisTool.execute of the draft handler
(`const domain = domainArg.trim().toLowerCase()`), exposed as
`checkDomainStatus`. -/
def checkDomainStatus (domainArg : String) (f : FetchOutcome) : JVal :=
  whoisCore (lowerStr (jsTrim domainArg)) f

/-- Content cut of one `<[^>]+>` match: given the characters after a `<`,
require at least one non-`>` character and then the first `>`; return the
remainder after it. -/
def tagChase : List Char → Option (List Char)
  | [] => none
  | c :: rest => if c = '>' then some rest else tagChase rest

def tagCut : List Char → Option (List Char)
  | [] => none
  | c :: rest => if c = '>' then none else tagChase rest

/-- `.replace(/<[^>]+>/g, " ")` (fueled left-to-right scan; each step consumes
at least one character, so the input length is ample fuel). -/
def stripTagsF : Nat → List Char → List Char
  | 0, cs => cs
  | _ + 1, [] => []
  | f + 1, c :: rest =>
    if c = '<' then
      match tagCut rest with
      | some rest2 => ' ' :: stripTagsF f rest2
      | none => c :: stripTagsF f rest
    else c :: stripTagsF f rest

/-- `.replace(/\s+/g, " ")`: collapse every whitespace run to one space. -/
def collapseWsAux : Bool → List Char → List Char
  | _, [] => []
  | prevWs, c :: rest =>
    if jsWhitespace c then
      if prevWs then collapseWsAux true rest else ' ' :: collapseWsAux true rest
    else c :: collapseWsAux false rest

/-- The draft handler's `stripHtml`: drop tags, collapse whitespace, trim. -/
def stripHtml (s : String) : String :=
  String.mk (trimChars (collapseWsAux false (stripTagsF (s.length + 1) s.toList)))

/-- Case-insensitive initial match of a lowercase literal. -/
def charsLeadCI : List Char → List Char → Bool
  | [], _ => true
  | _ :: _, [] => false
  | n :: ns, h :: hs => n = h.toLower && charsLeadCI ns hs

/-- `.replace(/https?:\/\//gi, "")`. -/
def stripHttpF : Nat → List Char → List Char
  | 0, cs => cs
  | _ + 1, [] => []
  | f + 1, c :: rest =>
    if charsLeadCI ['h', 't', 't', 'p', 's', ':', '/', '/'] (c :: rest) then
      stripHttpF f ((c :: rest).drop 8)
    else if charsLeadCI ['h', 't', 't', 'p', ':', '/', '/'] (c :: rest) then
      stripHttpF f ((c :: rest).drop 7)
    else c :: stripHttpF f rest

/-- `.replace(/www\./gi, "")`. -/
def stripWwwF : Nat → List Char → List Char
  | 0, cs => cs
  | _ + 1, [] => []
  | f + 1, c :: rest =>
    if charsLeadCI ['w', 'w', 'w', '.'] (c :: rest) then
      stripWwwF f ((c :: rest).drop 4)
    else c :: stripWwwF f rest

def isLabelChar (c : Char) : Bool :=
  ('a' ≤ c && c ≤ 'z') || ('0' ≤ c && c ≤ '9') || c = '-'

def isLetterAZ (c : Char) : Bool := 'a' ≤ c && c ≤ 'z'

/-- The regex word-character class `[A-Za-z0-9_]` used by `\b`. -/
def isWordChar (c : Char) : Bool :=
  ('a' ≤ c && c ≤ 'z') || ('A' ≤ c && c ≤ 'Z') || ('0' ≤ c && c ≤ '9') || c = '_'

/-- The final `[a-z]{2,63}\b` of the domain regex, on lowercased input, with
the backtracking resolved: the greedy letter run must have length 2–63 and be
followed by a non-word character or the end (shorter takes always end on a
letter, so no other take can satisfy the boundary). -/
def labelFinal (cs : List Char) : Option Nat :=
  let m := (cs.takeWhile isLetterAZ).length
  if 2 ≤ m && m ≤ 63 then
    match (cs.drop m).head? with
    | none => some m
    | some c => if isWordChar c then none else some m
  else none

/-- The `([a-z0-9-]{1,63}\.)+[a-z]{2,63}\b` part, on lowercased input: each
group is forced to be the maximal label run followed by a literal dot (a
shorter take would end on a label character, not a dot), and the greedy `+`
prefers a longer chain, falling back to finishing with the final label.
Returns the matched length. Fueled; each recursion consumes the group's run
plus the dot, so the input length is ample fuel. -/
def domainChain : Nat → List Char → Option Nat
  | 0, _ => none
  | f + 1, cs =>
    let r := (cs.takeWhile isLabelChar).length
    if r = 0 || 63 < r then none
    else
      match cs.drop r with
      | '.' :: rest =>
        (match domainChain f rest with
         | some n => some (r + 1 + n)
         | none =>
           match labelFinal rest with
           | some m => some (r + 1 + m)
           | none => none)
      | _ => none

/-- Leftmost match of `/\b([a-z0-9-]{1,63}\.)+[a-z]{2,63}\b/` on lowercased
text: scan start positions left to right, requiring the `\b` boundary between
the previous character and the first matched one. -/
def findDomainFrom : Bool → List Char → Option (List Char)
  | _, [] => none
  | prevWord, c :: rest =>
    if isWordChar c != prevWord then
      match domainChain (c :: rest).length (c :: rest) with
      | some n => some ((c :: rest).take n)
      | none => findDomainFrom (isWordChar c) rest
    else findDomainFrom (isWordChar c) rest

/-- The draft handler's `extractDomainFromText`: strip HTML, protocol and
`www.`, then the first domain-shaped match, lowercased. (The case-insensitive
match on mixed-case text followed by `.toLowerCase()` is realized by lowering
first, which is equivalent for the ASCII classes of this pattern.) -/
def extractDomainFromText (s : String) : Option String :=
  if s.isEmpty then none
  else
    let cs1 := (stripHtml s).toList
    let cs2 := stripHttpF (cs1.length + 1) cs1
    let cs3 := stripWwwF (cs2.length + 1) cs2
    match findDomainFrom false (cs3.map Char.toLower) with
    | some ds => some (String.mk ds)
    | none => none

/-- Placeholder for the TypeError raised by a property access on `null` or
`undefined` (the draft handler's parts loop does not guard its elements); the
exact engine message text is not significant downstream. -/
def typeErrMessage : String := "Cannot read properties of null or undefined"

/-- One part's direct text:
`(part.kind === "text" || part.type === "text") && typeof part.text === "string"
&& part.text.trim()`. -/
def directPartText (p : JVal) : Option String :=
  if isStrVal (p.get "kind") "text" || isStrVal (p.get "type") "text" then
    strTrimNonempty (p.get "text")
  else none

/-- The inner loop over a data part's nested entries. -/
def scanNested : List JVal → Except String (Option String)
  | [] => .ok none
  | n :: rest =>
    if isNullish n then .error typeErrMessage
    else
      match directPartText n with
      | some t => .ok (some t)
      | none => scanNested rest

/-- What one iteration of the draft handler's parts loop contributes: a thrown
TypeError, a found text, or nothing. -/
def partYield (p : JVal) : Except String (Option String) :=
  if isNullish p then .error typeErrMessage
  else
    match directPartText p with
    | some t => .ok (some t)
    | none =>
      if isStrVal (p.get "kind") "data" then
        match p.get "data" with
        | .arr nested => scanNested nested
        | _ => .ok none
      else .ok none

/-- The whole parts loop: first yielded text wins; `""` when nothing matched. -/
def scanParts : List JVal → Except String String
  | [] => .ok ""
  | p :: rest =>
    match partYield p with
    | .error e => .error e
    | .ok (some t) => .ok t
    | .ok none => scanParts rest

def noDomainText : String :=
  "No domain found in the message. Please provide a domain like \x27example.com\x27."

/-- One run of the draft `handleDomainMessage(message)`: the JSON-RPC-style
reply and the domains looked up (empty when the WHOIS tool was not invoked). -/
structure Part5Run where
  reply : JVal
  lookups : List String

/-- The draft handler `handleDomainMessage` of agents/domain-agent.js: guard the
message shape, scan parts for text, extract a domain, call the WHOIS tool, and
wrap its result. -/
def part5Handle (message : JVal) (fetchRes : FetchOutcome) : Part5Run :=
  if !(truthy message) || !(truthy (message.get "parts")) || !(isArrVal (message.get "parts")) then
    ⟨mkHandlerError "Invalid message object (missing parts)", []⟩
  else
    match scanParts (asArr (message.get "parts")) with
    | .error e => ⟨mkHandlerError e, []⟩
    | .ok userText =>
      if userText.isEmpty then
        ⟨mkHandlerError "Could not extract user text from message parts", []⟩
      else
        match extractDomainFromText userText with
        | none => ⟨wrapOk (mkTextOutput (.str noDomainText)), []⟩
        | some domain =>
          let toolResult := checkDomainStatus domain fetchRes
          if truthy (toolResult.get "output") then
            ⟨wrapOk (toolResult.get "output"), [domain]⟩
          else if truthy (toolResult.get "data") then
            ⟨wrapOk (mkJsonOutput (toolResult.get "data")), [domain]⟩
          else
            ⟨wrapOk (mkJsonOutput toolResult), [domain]⟩

/-! Helper facts and spec-side predicates. -/

theorem toDigitsCore_length (b : Nat) :
    ∀ (fuel n : Nat) (ds : List Char), ds.length ≤ (Nat.toDigitsCore b fuel n ds).length := by
  intro fuel
  induction fuel with
  | zero => intro n ds; simp [Nat.toDigitsCore]
  | succ f ih =>
    intro n ds
    by_cases h : n / b = 0
    · simp [Nat.toDigitsCore, h]
    · have h2 := ih (n / b) (Nat.digitChar (n % b) :: ds)
      simp only [Nat.toDigitsCore, h, if_false]
      exact le_trans (by simp) h2

theorem toDigits_length_pos (b n : Nat) : 1 ≤ (Nat.toDigits b n).length := by
  unfold Nat.toDigits
  by_cases h : n / b = 0
  · simp [Nat.toDigitsCore, h]
  · have h2 := toDigitsCore_length b n (n / b) [Nat.digitChar (n % b)]
    simp only [Nat.toDigitsCore, h, if_false]
    exact le_trans (by simp) h2

theorem natRepr_ne_empty (n : Nat) : Nat.repr n ≠ "" := by
  intro h
  have h2 := congrArg String.data h
  have h3 : (Nat.repr n).data = Nat.toDigits 10 n := rfl
  have h4 : ("" : String).data = [] := rfl
  rw [h3, h4] at h2
  have h5 := toDigits_length_pos 10 n
  rw [h2] at h5
  simp at h5

theorem intToString_ne_empty (n : Int) : toString n ≠ "" := by
  cases n with
  | ofNat m => exact natRepr_ne_empty m
  | negSucc m =>
    intro h
    have h2 := congrArg String.data h
    have h3 : (toString (Int.negSucc m)).data = '-' :: (Nat.repr (m + 1)).data := by
      show ("-" ++ Nat.repr (m + 1)).data = _
      rw [String.data_append]
      rfl
    rw [h3] at h2
    simp at h2

/-- Claim-side shape check: `{ ok: true, output }` wrapped in a `result`. -/
def isWrappedOkEnvelope (v : JVal) : Bool :=
  isBoolTrue ((v.get "result").get "ok") && hasKey (v.get "result") "output"

/-- Claim-side shape check: an error object carrying code `-32000`. -/
def isErrorMinus32000 (v : JVal) : Bool :=
  match (v.get "error").get "code" with
  | .num n => n = -32000
  | _ => false

theorem isWrappedOk_wrapOk (o : JVal) : isWrappedOkEnvelope (wrapOk o) = true := rfl

theorem wrapOk_output (o : JVal) : ((wrapOk o).get "result").get "output" = o := rfl

/-! Claim C1. -/

/-- An input of the class the claim enumerates ("an object with output"):
`looksLikeResultEnvelope` recognizes it and the normalizer passes it through
verbatim, producing neither of the claim's two envelope shapes. -/
def c1InputWithOutput : JVal := .obj [("output", .obj [("text", .str "hi")])]

/-- C1 counterexample: on the input `{ output: { text: "hi" } }` — one of the
inputs the claim itself enumerates — normalization returns the input unchanged,
which is neither `{ ok: true, output }` wrapped in a `result` nor an error
object with code `-32000`, so the claim's description of the output shape is
false as stated. -/
theorem c1_passthrough_breaks_claimed_shape :
    handleDomainMessage (.value c1InputWithOutput) = c1InputWithOutput ∧
    isWrappedOkEnvelope (handleDomainMessage (.value c1InputWithOutput)) = false ∧
    isErrorMinus32000 (handleDomainMessage (.value c1InputWithOutput)) = false :=
  ⟨rfl, rfl, rfl⟩

/-- C1 (amended): normalization is total — for every agent outcome (any value,
including `null`, unknown objects and strings, or a thrown exception) it
returns exactly one value, which is either the input passed through unchanged
(when `looksLikeResultEnvelope` already recognizes it), or `{ ok: true,
output }` wrapped in a `result`, or an error object with code `-32000`; it
never raises an unhandled failure. -/
theorem c1_normalizer_total_trichotomy (outcome : AgentOutcome) :
    (∃ v, outcome = .value v ∧ looksLikeResultEnvelope v = true ∧
      handleDomainMessage outcome = v) ∨
    isWrappedOkEnvelope (handleDomainMessage outcome) = true ∨
    isErrorMinus32000 (handleDomainMessage outcome) = true := by
  cases outcome with
  | thrown msg => exact Or.inr (Or.inr rfl)
  | value v =>
    by_cases hl : looksLikeResultEnvelope v = true
    · exact Or.inl ⟨v, rfl, hl, by simp [handleDomainMessage, normalizeAgentResult, hl]⟩
    · refine Or.inr (Or.inl ?_)
      have hlf : looksLikeResultEnvelope v = false := by simpa using hl
      show isWrappedOkEnvelope (normalizeAgentResult v) = true
      unfold normalizeAgentResult
      rw [hlf]
      simp only [Bool.false_eq_true, if_false]
      split
      · split
        · exact isWrappedOk_wrapOk _
        · split
          · exact isWrappedOk_wrapOk _
          · split
            · exact isWrappedOk_wrapOk _
            · exact isWrappedOk_wrapOk _
      · split
        · exact isWrappedOk_wrapOk _
        · exact isWrappedOk_wrapOk _

/-! Claim C3. -/

/-- A `ResultEnvelope` in the spec's data model: exactly `{ ok: true, output }`
or `{ ok: false, error }`. -/
def specResultEnvelopeShape (v : JVal) : Bool :=
  (isBoolTrue (v.get "ok") && hasKey v "output") ||
  ((match v.get "ok" with | .bool false => true | _ => false) && hasKey v "error")

/-- A value that has the shape of a `ResultEnvelope` (the error variant). -/
def c3ErrorEnvelope : JVal :=
  .obj [("ok", .bool false),
    ("error", .obj [("code", .num (-32001)), ("message", .str "lookup failed")])]

/-- C3 counterexample: `{ ok: false, error: {...} }` has the shape of a
`ResultEnvelope`, yet the normalizer does not pass it through unchanged (it
re-wraps it as a fresh success envelope), so normalization is not the identity
on every already-normalized envelope. -/
theorem c3_error_envelope_not_passed_through :
    specResultEnvelopeShape c3ErrorEnvelope = true ∧
    handleDomainMessage (.value c3ErrorEnvelope) ≠ c3ErrorEnvelope := by
  refine ⟨rfl, fun h => ?_⟩
  exact absurd (congrArg (fun v => hasKey v "result") h) (by decide)

/-- C3 (amended): the normalizer passes an input through unchanged exactly when
`looksLikeResultEnvelope` recognizes it — a `jsonrpc: "2.0"` object with
`result` or `error`, a truthy object `result` carrying `output` or an `ok`
field, or a truthy `output` carrying `text` or `artifacts`. In particular every
success envelope `{ ok: true, output }` whose output carries a truthy `text` or
`artifacts` is passed through; a bare `{ ok: false, error }` envelope is not
recognized and is re-wrapped. -/
theorem c3_passthrough_for_recognized_envelopes :
    (∀ v : JVal, looksLikeResultEnvelope v = true → handleDomainMessage (.value v) = v) ∧
    (∀ output : JVal,
      (truthy (output.get "text") || truthy (output.get "artifacts")) = true →
      handleDomainMessage (.value (.obj [("ok", .bool true), ("output", output)])) =
        .obj [("ok", .bool true), ("output", output)]) := by
  constructor
  · intro v hl
    simp [handleDomainMessage, normalizeAgentResult, hl]
  · intro output hout
    have htr : truthy output = true := by
      cases output <;> first | rfl | (simp [JVal.get, truthy] at hout)
    have hl : looksLikeResultEnvelope (.obj [("ok", .bool true), ("output", output)]) = true := by
      show (if truthy output && (truthy (output.get "text") || truthy (output.get "artifacts"))
            then true else false) = true
      rw [htr, hout]
      rfl
    simp [handleDomainMessage, normalizeAgentResult, hl]

/-- Witness for C3 (amended), applying the theorem at two concrete envelopes. -/
theorem c3_passthrough_witness :
    handleDomainMessage (.value (.obj [("jsonrpc", .str "2.0"), ("result", .num 7)])) =
      .obj [("jsonrpc", .str "2.0"), ("result", .num 7)] ∧
    handleDomainMessage (.value (.obj [("ok", .bool true),
        ("output", .obj [("text", .str "done"), ("artifacts", .arr [])])])) =
      .obj [("ok", .bool true), ("output", .obj [("text", .str "done"), ("artifacts", .arr [])])] :=
  ⟨c3_passthrough_for_recognized_envelopes.1 _ (by rfl),
   c3_passthrough_for_recognized_envelopes.2 _ (by rfl)⟩

/-! Claim C8. -/

/-- The claim's mirroring property for a canonical output: some artifact entry
has a part equal to the `text` field (a matching text artifact), or a `json`
part whose 2-space stringification is the `text` (a JSON artifact wrapping the
same payload). -/
def outputMirrorsText (o : JVal) : Prop :=
  ∃ arts, o.get "artifacts" = .arr arts ∧
    ∃ a ∈ arts, ∃ ps, a.get "parts" = .arr ps ∧
      ∃ p ∈ ps,
        (hasKey p "text" = true ∧ p.get "text" = o.get "text") ∨
        (hasKey p "json" = true ∧ stringifyOrUndefined (p.get "json") = o.get "text")

theorem mirrors_mkTextOutput (t : JVal) : outputMirrorsText (mkTextOutput t) :=
  ⟨[textArtifact t], rfl, textArtifact t, List.mem_singleton_self _,
   [.obj [("text", t)]], rfl, .obj [("text", t)], List.mem_singleton_self _,
   Or.inl ⟨rfl, rfl⟩⟩

theorem mirrors_mkJsonOutput (d : JVal) : outputMirrorsText (mkJsonOutput d) :=
  ⟨[jsonArtifact d], rfl, jsonArtifact d, List.mem_singleton_self _,
   [.obj [("json", d)]], rfl, .obj [("json", d)], List.mem_singleton_self _,
   Or.inr ⟨rfl, rfl⟩⟩

theorem mirrors_after_wrapOk (o : JVal) (h : outputMirrorsText o) :
    outputMirrorsText (((wrapOk o).get "result").get "output") := h

theorem str_append_ne_empty (a b : String) (ha : a ≠ "") : a ++ b ≠ "" := by
  intro h
  apply ha
  have h2 := congrArg String.data h
  rw [String.data_append] at h2
  have h3 : ("" : String).data = [] := rfl
  rw [h3] at h2
  exact String.ext (List.append_eq_nil.mp h2).1

theorem renderBlock_ne_empty (o closing : String) (ind : Nat) (items : List String)
    (ho : o ≠ "") : renderBlock o closing ind items ≠ "" := by
  unfold renderBlock
  split
  · exact str_append_ne_empty _ _ ho
  · exact str_append_ne_empty _ _ (str_append_ne_empty _ _ (str_append_ne_empty _ _
      (str_append_ne_empty _ _ (str_append_ne_empty _ _ ho))))

theorem quoteJson_ne_empty (s : String) : quoteJson s ≠ "" :=
  str_append_ne_empty "\"" _ (by decide)

theorem stringifyOrUndefined_ne_empty (v : JVal) (h : v ≠ .undefined) :
    ∃ s, stringifyOrUndefined v = .str s ∧ s ≠ "" := by
  cases v with
  | undefined => exact absurd rfl h
  | null => exact ⟨"null", rfl, by decide⟩
  | bool b =>
    cases b with
    | false => exact ⟨"false", rfl, by decide⟩
    | true => exact ⟨"true", rfl, by decide⟩
  | num n => exact ⟨toString n, rfl, intToString_ne_empty n⟩
  | str s => exact ⟨quoteJson s, rfl, quoteJson_ne_empty s⟩
  | arr xs =>
    exact ⟨renderBlock "[" "]" 0 (strItems 2 xs), rfl,
      renderBlock_ne_empty "[" "]" 0 (strItems 2 xs) (by decide)⟩
  | obj fs =>
    exact ⟨renderBlock lbrace rbrace 0 (strFields 2 fs), rfl,
      renderBlock_ne_empty lbrace rbrace 0 (strFields 2 fs) (by decide)⟩

theorem truthy_ne_undefined (v : JVal) (h : truthy v = true) : v ≠ .undefined := by
  intro hv
  rw [hv] at h
  exact absurd h (by decide)

/-- The claim's counterexample input: an object whose `output` field is honored
verbatim. -/
def c8Passthrough : JVal := .obj [("output", .obj [("foo", .num 1)])]

/-- C8 counterexample: for the input `{ output: { foo: 1 } }` the pipeline
produces the success envelope `{ result: { ok: true, output: { foo: 1 } } }`
whose output has no `text` field and no `artifacts` at all, so the invariant
"text present and non-empty, artifacts mirror it" fails as stated. -/
theorem c8_success_output_may_lack_text_and_artifacts :
    isWrappedOkEnvelope (handleDomainMessage (.value c8Passthrough)) = true ∧
    ((handleDomainMessage (.value c8Passthrough)).get "result").get "output" =
      .obj [("foo", .num 1)] ∧
    hasKey (JVal.obj [("foo", .num 1)]) "text" = false ∧
    hasKey (JVal.obj [("foo", .num 1)]) "artifacts" = false :=
  ⟨rfl, rfl, rfl, rfl⟩

/-- C8 (amended): in every success envelope whose output the normalizer itself
constructs (the input was not already envelope-like and carried no `output`
field of its own), the artifacts contain an entry mirroring the `text` field;
moreover, when the text does not come from the input's `text`/`output_text`
fields or from a plain string input (so it is the pretty-printed JSON of the
payload), it is present and non-empty. Envelopes that merely wrap an input's
own `output` field inherit whatever shape that output had. -/
theorem c8_constructed_success_outputs_mirror_text (v : JVal)
    (hl : looksLikeResultEnvelope v = false)
    (hout : truthy (v.get "output") = false) :
    outputMirrorsText (((handleDomainMessage (.value v)).get "result").get "output") ∧
    (truthy (v.get "output_text") = false → truthy (v.get "text") = false →
      (∀ s, v ≠ .str s) → v ≠ .undefined →
      ∃ s, (((handleDomainMessage (.value v)).get "result").get "output").get "text" = .str s ∧
        s ≠ "") := by
  show outputMirrorsText (((normalizeAgentResult v).get "result").get "output") ∧
    (truthy (v.get "output_text") = false → truthy (v.get "text") = false →
      (∀ s, v ≠ .str s) → v ≠ .undefined →
      ∃ s, (((normalizeAgentResult v).get "result").get "output").get "text" = .str s ∧
        s ≠ "")
  unfold normalizeAgentResult
  rw [hl, hout]
  simp only [Bool.false_eq_true, if_false]
  constructor
  · split
    · split
      · exact mirrors_after_wrapOk _ (mirrors_mkTextOutput _)
      · split
        · exact mirrors_after_wrapOk _ (mirrors_mkJsonOutput _)
        · exact mirrors_after_wrapOk _ (mirrors_mkJsonOutput _)
    · split
      · exact mirrors_after_wrapOk _ (mirrors_mkTextOutput _)
      · exact mirrors_after_wrapOk _ (mirrors_mkJsonOutput _)
  · intro h1 h2 h3 h4
    rw [h1, h2]
    simp only [Bool.or_self, Bool.false_eq_true, if_false]
    split
    · split
      · exact stringifyOrUndefined_ne_empty _ (truthy_ne_undefined _ (by assumption))
      · exact stringifyOrUndefined_ne_empty _ h4
    · exact stringifyOrUndefined_ne_empty _ h4

/-- Witness for C8 (amended), applying the theorem to the data-carrying input
`{ data: { registered: true } }`. -/
theorem c8_constructed_outputs_witness :
    outputMirrorsText (((handleDomainMessage
      (.value (.obj [("data", .obj [("registered", .bool true)])]))).get "result").get "output") :=
  (c8_constructed_success_outputs_mirror_text
    (.obj [("data", .obj [("registered", .bool true)])]) (by rfl) (by rfl)).1

/-! Claims C2 and C10. -/

theorem coalesce_of_nullish (a b : JVal) (h : isNullish a = true) : coalesce a b = b := by
  simp [coalesce, h]

theorem coalesce_of_not_nullish (a b : JVal) (h : isNullish a = false) : coalesce a b = a := by
  simp [coalesce, h]

theorem not_nullish_of_truthy (a : JVal) (h : truthy a = true) : isNullish a = false := by
  cases a <;> simp_all [truthy, isNullish]

theorem coalesce_of_truthy (a b : JVal) (h : truthy a = true) : coalesce a b = a :=
  coalesce_of_not_nullish a b (not_nullish_of_truthy a h)

theorem coalesce_coalesce_null (a : JVal) :
    coalesce (coalesce a .null) .null = coalesce a .null := by
  cases a <;> rfl

/-- With no params-level push URL and a truthy config URL, the resolved push
target is the config URL. -/
theorem resolvePushUrl_config (body : JVal)
    (hp1 : isNullish ((body.get "params").get "push_url") = true)
    (hp2 : isNullish ((body.get "params").get "pushUrl") = true)
    (hcfg : truthy (configPushUrl body) = true) :
    resolvePushUrl body = configPushUrl body := by
  simp only [resolvePushUrl]
  rw [coalesce_of_nullish _ _ hp2, coalesce_of_nullish _ _ hp1,
    coalesce_of_truthy _ _ hcfg, coalesce_of_nullish .null _ (by rfl),
    coalesce_of_truthy _ _ hcfg]

/-- Claim-side check for a 202 acknowledgment body: it carries
`status: "accepted"` directly or under `result`. -/
def isAcceptedBody (b : JVal) : Bool :=
  isStrVal (b.get "status") "accepted" || isStrVal ((b.get "result").get "status") "accepted"

theorem ackResponse_status (j i : JVal) : (ackResponse j i).status = 202 := by
  unfold ackResponse
  split <;> rfl

theorem ackResponse_accepted (j i : JVal) : isAcceptedBody (ackResponse j i).body = true := by
  unfold ackResponse
  split <;> rfl

/-- Characterization of the handler's push branch. -/
theorem appPost_push (body : JVal) (agent : AgentOutcome) (push : PushOutcome)
    (h : truthy (resolvePushUrl body) = true) :
    appPost body agent push =
      ⟨ackResponse (coalesce (body.get "jsonrpc") (.str "2.0")) (coalesce (body.get "id") .null),
       [⟨resolvePushUrl body,
         envelopeFor (coalesce (body.get "id") .null) (handleDomainMessage agent),
         resolvePushToken body⟩],
       (postToPushUrl (resolvePushUrl body)
         (envelopeFor (coalesce (body.get "id") .null) (handleDomainMessage agent))
         (resolvePushToken body) push).2⟩ := by
  simp only [appPost, h]
  rfl

/-- C2: a request carrying `configuration.pushNotificationConfig.url` (with no
params-level push target overriding it) is acknowledged with HTTP 202 and an
accepted-status body; exactly one POST is then made, to that URL, carrying the
final envelope; and the already-sent 202 response does not depend on the agent
outcome or on whether that POST succeeds, is rejected, or throws — a delivery
failure is only logged, never retried, and no exception escapes. -/
theorem c2_push_mode_two_phase (body : JVal) (agent : AgentOutcome) (push : PushOutcome)
    (hcfg : truthy (configPushUrl body) = true)
    (hp1 : isNullish ((body.get "params").get "push_url") = true)
    (hp2 : isNullish ((body.get "params").get "pushUrl") = true) :
    (appPost body agent push).response.status = 202 ∧
    isAcceptedBody (appPost body agent push).response.body = true ∧
    (appPost body agent push).pushes =
      [⟨configPushUrl body,
        envelopeFor (coalesce (body.get "id") .null) (handleDomainMessage agent),
        resolvePushToken body⟩] ∧
    (∀ (agent2 : AgentOutcome) (push2 : PushOutcome),
      (appPost body agent2 push2).response = (appPost body agent push).response) := by
  have hres := resolvePushUrl_config body hp1 hp2 hcfg
  have htr : truthy (resolvePushUrl body) = true := by rw [hres]; exact hcfg
  refine ⟨?_, ?_, ?_, ?_⟩
  · rw [appPost_push body agent push htr]
    exact ackResponse_status _ _
  · rw [appPost_push body agent push htr]
    exact ackResponse_accepted _ _
  · rw [appPost_push body agent push htr, hres]
  · intro agent2 push2
    rw [appPost_push body agent2 push2 htr, appPost_push body agent push htr]

/-- A concrete push-mode request body. -/
def c2Body : JVal :=
  .obj [("jsonrpc", .str "2.0"), ("id", .num 1),
    ("configuration", .obj [("pushNotificationConfig",
      .obj [("url", .str "https://callback.example/hook"), ("token", .str "tok123")])])]

/-- Witness for C2, applying the theorem at a concrete body, a throwing agent,
and a rejected push POST. -/
theorem c2_push_mode_witness :
    (appPost c2Body (.thrown "agent exploded") (.rejected 503)).response.status = 202 ∧
    (appPost c2Body (.thrown "agent exploded") (.rejected 503)).pushes =
      [⟨configPushUrl c2Body,
        envelopeFor (coalesce (c2Body.get "id") .null)
          (handleDomainMessage (.thrown "agent exploded")),
        resolvePushToken c2Body⟩] :=
  ⟨(c2_push_mode_two_phase c2Body (.thrown "agent exploded") (.rejected 503)
      (by rfl) (by rfl) (by rfl)).1,
   (c2_push_mode_two_phase c2Body (.thrown "agent exploded") (.rejected 503)
      (by rfl) (by rfl) (by rfl)).2.2.1⟩

/-- C10: push-target resolution precedence — `params.push_url` wins, then
`params.pushUrl`, and the configuration-level URL is used only when both
params-level values are nullish; likewise for the token; and when a truthy
`params.push_url` is present the single push POST goes to it. -/
theorem c10_push_target_precedence :
    (∀ body : JVal, isNullish ((body.get "params").get "push_url") = false →
      resolvePushUrl body = (body.get "params").get "push_url") ∧
    (∀ body : JVal, isNullish ((body.get "params").get "push_url") = true →
      isNullish ((body.get "params").get "pushUrl") = false →
      resolvePushUrl body = (body.get "params").get "pushUrl") ∧
    (∀ body : JVal, isNullish ((body.get "params").get "push_url") = true →
      isNullish ((body.get "params").get "pushUrl") = true →
      resolvePushUrl body = coalesce (configPushUrl body) .null) ∧
    (∀ body : JVal, isNullish ((body.get "params").get "push_token") = false →
      resolvePushToken body = (body.get "params").get "push_token") ∧
    (∀ body : JVal, isNullish ((body.get "params").get "push_token") = true →
      isNullish ((body.get "params").get "pushToken") = false →
      resolvePushToken body = (body.get "params").get "pushToken") ∧
    (∀ body : JVal, isNullish ((body.get "params").get "push_token") = true →
      isNullish ((body.get "params").get "pushToken") = true →
      resolvePushToken body = coalesce (configPushToken body) .null) ∧
    (∀ (body : JVal) (agent : AgentOutcome) (push : PushOutcome),
      truthy ((body.get "params").get "push_url") = true →
      (appPost body agent push).pushes.map PushAttempt.url =
        [(body.get "params").get "push_url"]) := by
  refine ⟨?_, ?_, ?_, ?_, ?_, ?_, ?_⟩
  · intro body h1
    simp only [resolvePushUrl]
    rw [coalesce_of_not_nullish _ _ h1, coalesce_of_not_nullish _ _ h1]
  · intro body h1 h2
    simp only [resolvePushUrl]
    rw [coalesce_of_not_nullish _ _ h2, coalesce_of_nullish _ _ h1,
      coalesce_of_not_nullish _ _ h2]
  · intro body h1 h2
    simp only [resolvePushUrl]
    rw [coalesce_of_nullish _ _ h2, coalesce_of_nullish _ _ h1,
      coalesce_of_nullish .null _ (by rfl), coalesce_coalesce_null]
  · intro body h1
    simp only [resolvePushToken]
    rw [coalesce_of_not_nullish _ _ h1, coalesce_of_not_nullish _ _ h1]
  · intro body h1 h2
    simp only [resolvePushToken]
    rw [coalesce_of_not_nullish _ _ h2, coalesce_of_nullish _ _ h1,
      coalesce_of_not_nullish _ _ h2]
  · intro body h1 h2
    simp only [resolvePushToken]
    rw [coalesce_of_nullish _ _ h2, coalesce_of_nullish _ _ h1,
      coalesce_of_nullish .null _ (by rfl), coalesce_coalesce_null]
  · intro body agent push h1
    have hn : isNullish ((body.get "params").get "push_url") = false :=
      not_nullish_of_truthy _ h1
    have hres : resolvePushUrl body = (body.get "params").get "push_url" := by
      simp only [resolvePushUrl]
      rw [coalesce_of_not_nullish _ _ hn, coalesce_of_not_nullish _ _ hn]
    have htr : truthy (resolvePushUrl body) = true := by rw [hres]; exact h1
    rw [appPost_push body agent push htr, hres]
    rfl

/-- A body carrying both params-level and configuration-level push targets. -/
def c10Body : JVal :=
  .obj [("params", .obj [("push_url", .str "https://params.example/hook"),
      ("push_token", .str "ptok")]),
    ("configuration", .obj [("pushNotificationConfig",
      .obj [("url", .str "https://config.example/hook"), ("token", .str "ctok")])])]

/-- Witness for C10 at a body that carries both levels: the params-level values
win and the push POST targets them. -/
theorem c10_push_target_precedence_witness :
    resolvePushUrl c10Body = (c10Body.get "params").get "push_url" ∧
    resolvePushToken c10Body = (c10Body.get "params").get "push_token" ∧
    (appPost c10Body (.thrown "x") (.delivered 200)).pushes.map PushAttempt.url =
      [(c10Body.get "params").get "push_url"] :=
  ⟨c10_push_target_precedence.1 c10Body (by rfl),
   c10_push_target_precedence.2.2.2.1 c10Body (by rfl),
   c10_push_target_precedence.2.2.2.2.2.2 c10Body (.thrown "x") (.delivered 200) (by rfl)⟩

/-! Claim C5. -/

/-- The structured registration flags the spec names: `registered === true`,
`is_registered === true`, or `domainStatus === "registered"`. -/
def structuredFlags (json : JVal) : Bool :=
  isBoolTrue (json.get "registered") || isBoolTrue (json.get "is_registered") ||
    isStrVal (json.get "domainStatus") "registered"

theorem whoisRegisteredOf_eq (json : JVal) (raw : String) :
    whoisRegisteredOf json raw =
      (structuredFlags json || containsInsensitive raw "registered") := by
  cases json <;>
    simp [whoisRegisteredOf, structuredFlags, truthy, JVal.get, isBoolTrue, isStrVal]

/-- The claim's registration policy as stated: structured flags when the body
is valid structured data, and the substring fallback ONLY when it is not.
Written from the claim's words, for comparison with the code. -/
def specClaimRegistered (rawText : String) : Bool :=
  match (if rawText.isEmpty then none else jsonParse rawText) with
  | some json => structuredFlags json
  | none => containsInsensitive rawText "registered"

/-- The amended registration policy: structured flags, OR the substring
fallback applied unconditionally (also to bodies that parsed fine). -/
def specAmendedRegistered (rawText : String) : Bool :=
  structuredFlags
    (if rawText.isEmpty then .null
     else
       match jsonParse rawText with
       | some v => v
       | none => .null) || containsInsensitive rawText "registered"

/-- A body that is valid structured data and explicitly marks the domain as
NOT registered — but contains the substring "registered" (as any body using
that flag name does). -/
def c5RawText : String := "\x7b\"registered\":false\x7d"

/-- C5 counterexample: on the valid JSON body `{"registered":false}` the
claim's policy (flags only, fallback reserved for unparsable bodies) says not
registered, but the code still applies the raw-text fallback and resolves
`registered` to `true`. -/
theorem c5_fallback_applies_to_parsed_bodies :
    specClaimRegistered c5RawText = false ∧
    ((whoisExecute "example.com" (.success true 200 c5RawText)).get "data").get "registered" =
      .bool true :=
  ⟨rfl, rfl⟩

/-- C5 (amended): the domain is treated as registered iff the parsed body
carries one of the known flags OR the raw response text contains the
case-insensitive substring "registered" — the substring fallback applies
whether or not the body is valid structured data; in particular raw text
containing "registered" with no structured flags resolves `registered` to
`true`. -/
theorem c5_registration_determination (domain rawText : String) (ok : Bool) (st : Nat) :
    ((whoisExecute domain (.success ok st rawText)).get "data").get "registered" =
      .bool (specAmendedRegistered rawText) ∧
    (∀ raw : String, jsonParse raw = none → containsInsensitive raw "registered" = true →
      specAmendedRegistered raw = true) := by
  constructor
  · show JVal.bool (whoisRegisteredOf
        (if rawText.isEmpty then JVal.null
         else
           match jsonParse rawText with
           | some v => v
           | none => JVal.null) rawText) =
      JVal.bool (specAmendedRegistered rawText)
    rw [whoisRegisteredOf_eq]
    rfl
  · intro raw hp hc
    simp only [specAmendedRegistered, hp, hc, Bool.or_true]

/-- Witness for C5 (amended): unstructured text containing "Registered"
resolves the flag to true. -/
theorem c5_registration_witness :
    specAmendedRegistered "Domain is Registered since 1999" = true :=
  (c5_registration_determination "example.com" "" true 0).2
    "Domain is Registered since 1999" (by rfl) (by rfl)

/-! Claim C4. -/

/-- A message asking for the lookup of example.com. -/
def c4Message : JVal :=
  .obj [("parts", .arr [.obj [("kind", .str "text"), ("text", .str "check example.com")]])]

/-- C4 counterexample: on a non-2xx (403) provider response the lookup is NOT
a failure — the tool returns a success value (top-level `status: "ok"`, no
`error` field; only the inner data records `status: "error"`), the handler
turns it into a success envelope, and the synchronous HTTP status is 200, not
500; no `{ok:false, error:{code:-32001}}` envelope is produced. -/
theorem c4_non2xx_yields_success_envelope :
    (hasKey (whoisExecute "example.com" (.success false 403 "Access denied")) "error" = false ∧
     isStrVal ((whoisExecute "example.com" (.success false 403 "Access denied")).get "status")
       "ok" = true ∧
     isStrVal (((whoisExecute "example.com" (.success false 403 "Access denied")).get
       "data").get "status") "error" = true) ∧
    isWrappedOkEnvelope (part5Handle c4Message (.success false 403 "Access denied")).reply =
      true ∧
    (syncResponse .null (part5Handle c4Message (.success false 403 "Access denied")).reply).status
      = 200 := by
  exact ⟨⟨rfl, rfl, rfl⟩, by rfl, by rfl⟩

/-- C4 (amended): a non-2xx response still yields a success return whose
top-level status is "ok" (the structured data records status "error"); the
`-32001` error is produced only when the fetch itself throws, and even that
error return carries an `output`, so the draft handler wraps it as a success
envelope and the synchronous status is 200. -/
theorem c4_lookup_error_shapes (domain rawText msg : String) (st : Nat) :
    (hasKey (whoisExecute domain (.success false st rawText)) "error" = false ∧
     isStrVal ((whoisExecute domain (.success false st rawText)).get "status") "ok" = true ∧
     isStrVal (((whoisExecute domain (.success false st rawText)).get "data").get "status")
       "error" = true) ∧
    (isStrVal ((whoisExecute domain (.failure msg)).get "status") "error" = true ∧
     ((whoisExecute domain (.failure msg)).get "error").get "code" = .num (-32001) ∧
     truthy ((whoisExecute domain (.failure msg)).get "output") = true) ∧
    isWrappedOkEnvelope (part5Handle c4Message (.failure "network down")).reply = true ∧
    (syncResponse .null (part5Handle c4Message (.failure "network down")).reply).status = 200 := by
  exact ⟨⟨rfl, rfl, rfl⟩, ⟨rfl, rfl, rfl⟩, by rfl, by rfl⟩

/-! Claim C9. -/

def c9Raw : String :=
  "\x7b\"registered\":true,\"registrar\":\"ACME\",\"expires\":\"2025-01-01\"\x7d"

def c9Text : String :=
  "Domain example.com appears to be registered. Expires: 2025-01-01. Registrar: ACME."

/-- C9: for a lookup of example.com whose body carries registered true,
registrar "ACME" and expires "2025-01-01", the canonical text equals exactly
the success-text template instance, and the artifacts are exactly one JSON
artifact wrapping the structured record followed by one text artifact matching
the text; the domain extracted from "Check domain example.com" is
"example.com". -/
theorem c9_success_text_template :
    extractDomainFromText "Check domain example.com" = some "example.com" ∧
    ((whoisExecute "example.com" (.success true 200 c9Raw)).get "output").get "text" =
      .str c9Text ∧
    ((whoisExecute "example.com" (.success true 200 c9Raw)).get "output").get "artifacts" =
      .arr [jsonArtifact ((whoisExecute "example.com" (.success true 200 c9Raw)).get "data"),
        textArtifact (.str c9Text)] := by
  exact ⟨by rfl, by rfl, by rfl⟩

/-! Claim C6. -/

def c6EmptyPartsMessage : JVal := .obj [("parts", .arr [])]

/-- C6 counterexample: for a message with an EMPTY parts array — a case the
claim folds into InputMissing — the draft handler does not recover into a
clarifying text: it returns a `-32000` error envelope, the synchronous status
for that error reply is 500 (not 200), and no lookup is invoked. -/
theorem c6_empty_parts_yields_error_envelope :
    hasKey (part5Handle c6EmptyPartsMessage (.success true 200 "")).reply "error" = true ∧
    ((part5Handle c6EmptyPartsMessage (.success true 200 "")).reply.get "error").get "code" =
      .num (-32000) ∧
    hasKey (part5Handle c6EmptyPartsMessage (.success true 200 "")).reply "result" = false ∧
    (part5Handle c6EmptyPartsMessage (.success true 200 "")).lookups = [] ∧
    (syncResponse .null (part5Handle c6EmptyPartsMessage (.success true 200 "")).reply).status =
      500 :=
  ⟨by rfl, by rfl, by rfl, by rfl, by rfl⟩

/-- C6 (amended): when user text IS extracted but no domain can be found in
it, the handler recovers locally into the fixed clarifying canonical text — a
success envelope, never an error envelope — the lookup is not invoked, and the
synchronous HTTP status is 200; but when no text can be extracted at all
(including the empty-parts-array case) the handler instead returns a `-32000`
error envelope. -/
theorem c6_no_domain_recovers_with_clarification (message : JVal) (f : FetchOutcome)
    (ps : List JVal) (t : String)
    (hm : truthy message = true)
    (hps : message.get "parts" = .arr ps)
    (hscan : scanParts ps = .ok t)
    (ht : t.isEmpty = false)
    (hdom : extractDomainFromText t = none) :
    part5Handle message f = ⟨wrapOk (mkTextOutput (.str noDomainText)), []⟩ ∧
    (syncResponse .null (part5Handle message f).reply).status = 200 := by
  have hrun : part5Handle message f = ⟨wrapOk (mkTextOutput (.str noDomainText)), []⟩ := by
    unfold part5Handle
    rw [hps, hm]
    simp only [truthy, isArrVal, asArr, Bool.not_true, Bool.or_self, Bool.false_or,
      Bool.or_false, Bool.false_eq_true, if_false]
    rw [hscan]
    simp only [ht, Bool.false_eq_true, if_false]
    rw [hdom]
  exact ⟨hrun, by rw [hrun]; rfl⟩

/-- Witness for C6 (amended) at the message `[{kind:"text", text:"hello
there"}]`: the reply is the clarifying text envelope, no lookup happens, and
the synchronous status is 200. -/
theorem c6_clarification_witness :
    part5Handle
      (.obj [("parts", .arr [.obj [("kind", .str "text"), ("text", .str "hello there")]])])
      (.success true 200 "") = ⟨wrapOk (mkTextOutput (.str noDomainText)), []⟩ ∧
    (syncResponse .null (part5Handle
      (.obj [("parts", .arr [.obj [("kind", .str "text"), ("text", .str "hello there")]])])
      (.success true 200 "")).reply).status = 200 :=
  c6_no_domain_recovers_with_clarification
    (.obj [("parts", .arr [.obj [("kind", .str "text"), ("text", .str "hello there")]])])
    (.success true 200 "")
    [.obj [("kind", .str "text"), ("text", .str "hello there")]]
    "hello there" (by rfl) (by rfl) (by rfl) (by rfl) (by rfl)

/-! Claim C7. -/

/-- C7: first-match-wins for the parts scan of the Domain Extractor — for
every structured message whose parts consist of a run of parts yielding no
candidate (and not throwing), then a part yielding candidate text `t` (a
"text"-kind/type part with non-empty trimmed text, or one nested level down
inside a "data" part's sequence), the scan returns `t`, ignoring all later
parts. -/
theorem c7_first_text_part_wins (pre post : List JVal) (p : JVal) (t : String)
    (hpre : ∀ q ∈ pre, partYield q = .ok none)
    (hp : partYield p = .ok (some t)) :
    scanParts (pre ++ p :: post) = .ok t := by
  induction pre with
  | nil =>
    rw [List.nil_append]
    unfold scanParts
    rw [hp]
  | cons q rest ih =>
    have hq := hpre q (by simp)
    rw [List.cons_append]
    unfold scanParts
    rw [hq]
    exact ih fun r hr => hpre r (by simp [hr])

def c7Pre : List JVal :=
  [.obj [("kind", .str "text"), ("text", .str "   ")],
   .obj [("kind", .str "image"), ("url", .str "https://img.example/i.png")]]

def c7Hit : JVal := .obj [("type", .str "text"), ("text", .str " check example.com ")]

def c7Post : List JVal := [.obj [("kind", .str "text"), ("text", .str "later.net")]]

/-- Witness for C7: a blank text part and an image part are skipped, the first
non-empty text part (generic "text" type) wins, and the later text part is
ignored. -/
theorem c7_first_text_part_wins_witness :
    scanParts (c7Pre ++ c7Hit :: c7Post) = .ok "check example.com" :=
  c7_first_text_part_wins c7Pre c7Post c7Hit "check example.com"
    (by
      intro q hq
      simp only [c7Pre, List.mem_cons, List.not_mem_nil, or_false] at hq
      rcases hq with rfl | rfl <;> rfl)
    (by rfl)

end DomainAgent
